import Mathlib

/-!
Verification development for the Browser-Automation-AI-Agent repository.

The repository contains two Express servers exposing Playwright browser
tools to an LLM agent:
* the primary server (`src/unnamed/part_000`, the root `index.js`): session
  manager `getBrowser`/`closeBrowser` with a `browserInitializing` guard and
  a full tool catalog whose bodies all use try/catch;
* a legacy server (`src/BE/index.js`) with a reduced catalog whose tool
  bodies do not catch errors.

All definitions below are shallow embeddings of those JavaScript functions.
Driver operations (Playwright calls, OpenAI calls) are modelled by explicit
outcome arguments (`Except String _` or `Bool` oracles) supplied per call.
-/

namespace BrowserAgent

/-- The process-wide session globals of the primary server:
`let browser, context, page; let browserInitializing = false;`.
Handles are opaque driver objects, modelled as `Option Nat` ids.
`connected` models `browser.isConnected()` for the current handle. -/
structure Session where
  browser : Option Nat
  context : Option Nat
  page : Option Nat
  initializing : Bool
  connected : Bool
deriving DecidableEq, Repr

/-- The reuse test of `getBrowser` / `checkBrowserStatus` / `openBrowser`:
`browser && browser.isConnected() && context && page`. -/
def sessionFull (s : Session) : Bool :=
  s.browser.isSome && s.connected && s.context.isSome && s.page.isSome

/-- Outcome of one initialization attempt inside `getBrowser`'s try block:
either every awaited driver call succeeds, or `chromium.launch`,
`browser.newContext`, or `context.newPage` raises (with a message). -/
inductive LaunchOutcome where
  | ok
  | failLaunch (msg : String)
  | failCtx (msg : String)
  | failPage (msg : String)
deriving DecidableEq, Repr

/-- Session state after a fully successful initialization:
`browser`, `context`, `page` assigned, listeners wired, flag cleared in
`finally`. -/
def launchedSession (newId : Nat) : Session :=
  { browser := some newId, context := some newId, page := some newId,
    initializing := false, connected := true }

/-- Session state after the catch block of `getBrowser`:
`browser = context = page = null`, flag cleared in `finally`. -/
def failedSession : Session :=
  { browser := none, context := none, page := none,
    initializing := false, connected := false }

/-- Sequential state semantics of `getBrowser` (primary server).
Returns the post-call session and `.ok`/`.error` for normal return vs. the
re-raised launch failure.  The waiter branch (flag already set) returns the
then-current handles without touching the session; the best-effort
`browser.close()` of a stale handle mutates no session variable, so it has
no state effect here.  On `failCtx`/`failPage` the partially assigned
handles are nulled again by the catch block, giving the same post state as
`failLaunch`. -/
def getBrowser_run (s : Session) (lo : LaunchOutcome) (newId : Nat) :
    Session × Except String Unit :=
  if s.initializing then (s, Except.ok ())
  else if sessionFull s then (s, Except.ok ())
  else match lo with
    | LaunchOutcome.ok => (launchedSession newId, Except.ok ())
    | LaunchOutcome.failLaunch m => (failedSession, Except.error m)
    | LaunchOutcome.failCtx m => (failedSession, Except.error m)
    | LaunchOutcome.failPage m => (failedSession, Except.error m)

/-- The three close operations attempted inside `closeBrowser`'s single
try block, in source order. -/
inductive CloseStep where
  | pageClose
  | ctxClose
  | browserClose
deriving DecidableEq, Repr

/-- Close steps attempted after the `page.close()` stage of `closeBrowser`:
`if (context) await context.close(); await browser.close();` — a raise in
`context.close()` aborts the shared try block before `browser.close()`. -/
def closeTail (s : Session) (cOk : Bool) : List CloseStep :=
  if s.context.isSome then
    if cOk then [CloseStep.ctxClose, CloseStep.browserClose]
    else [CloseStep.ctxClose]
  else [CloseStep.browserClose]

/-- Close steps attempted by `closeBrowser`'s try block: `page.close()` is
attempted first when a page handle exists, and a raise there aborts the
try block before the context/browser closes. -/
def closeAttempts (s : Session) (pOk cOk : Bool) : List CloseStep :=
  if s.page.isSome then
    if pOk then CloseStep.pageClose :: closeTail s cOk
    else [CloseStep.pageClose]
  else closeTail s cOk

/-- Sequential semantics of `closeBrowser` (primary server): guarded by
`if (browser)`; one try/catch around all three closes; a `finally` that
always nulls the three handles and clears `browserInitializing`.  Returns
the post-call session together with the list of close operations actually
attempted (`pOk`/`cOk`: whether `page.close()` / `context.close()`
completed without raising; the outcome of `browser.close()` is last and
affects nothing further). -/
def closeBrowser_run (s : Session) (pOk cOk : Bool) :
    Session × List CloseStep :=
  if s.browser.isSome then (failedSession, closeAttempts s pOk cOk)
  else (s, [])

/-- The handle-triple invariant of the spec: all three null, or all three
populated. -/
def handlesConsistent (s : Session) : Prop :=
  (s.browser = none ∧ s.context = none ∧ s.page = none) ∨
  (s.browser.isSome ∧ s.context.isSome ∧ s.page.isSome)

/-- C2: after `getBrowser` or `closeBrowser` returns, the session's three
handles are all null or all populated; a failed launch (the re-raised
error path) leaves all three reset, and a close with a live browser handle
resets all three.  These are the only two operations of the primary server
that assign the handle globals, so the invariant holds after every tool
call. -/
theorem session_handles_all_or_none (s : Session) (lo : LaunchOutcome)
    (newId : Nat) (pOk cOk : Bool) (h : handlesConsistent s) :
    handlesConsistent (getBrowser_run s lo newId).1 ∧
    handlesConsistent (closeBrowser_run s pOk cOk).1 ∧
    ((getBrowser_run s lo newId).2.isOk = false →
      (getBrowser_run s lo newId).1 = failedSession) ∧
    (s.browser.isSome = true →
      (closeBrowser_run s pOk cOk).1 = failedSession) := by
  unfold getBrowser_run closeBrowser_run
  refine ⟨?_, ?_, ?_, ?_⟩
  · split
    · exact h
    · split
      · exact h
      · cases lo <;>
          simp [handlesConsistent, launchedSession, failedSession]
  · split
    · simp [handlesConsistent, failedSession]
    · exact h
  · split
    · simp [Except.isOk, Except.toBool]
    · split
      · simp [Except.isOk, Except.toBool]
      · cases lo <;> simp [Except.isOk, Except.toBool]
  · intro hb
    split
    · rfl
    · simp_all

/-- Closed instance of `session_handles_all_or_none`: a failed launch from
the empty session and a close of a fully populated session both preserve
the all-or-none handle invariant. -/
theorem session_handles_all_or_none_witness :
    handlesConsistent
      (getBrowser_run failedSession (LaunchOutcome.failLaunch "boom") 0).1 ∧
    handlesConsistent (closeBrowser_run failedSession true true).1 := by
  have h := session_handles_all_or_none failedSession
    (LaunchOutcome.failLaunch "boom") 0 true true
    (Or.inl ⟨rfl, rfl, rfl⟩)
  exact ⟨h.1, h.2.1⟩

/-- C6 counterexample: with a fully populated session, when `page.close()`
raises, `closeBrowser` never attempts `context.close()` or
`browser.close()` — the three close steps share one try block and are not
independently guarded. -/
theorem closeBrowser_not_independently_guarded :
    (closeBrowser_run (launchedSession 0) false true).2 =
      [CloseStep.pageClose] ∧
    CloseStep.ctxClose ∉ (closeBrowser_run (launchedSession 0) false true).2 ∧
    CloseStep.browserClose ∉
      (closeBrowser_run (launchedSession 0) false true).2 ∧
    (closeBrowser_run (launchedSession 0) false true).1 = failedSession := by
  decide

/-- C6 (amended): `closeBrowser` best-effort closes page, then context,
then browser under a single shared guard — a raise in an earlier close
step aborts the remaining close steps — and, whenever a browser handle
exists, it always resets all three handles and clears the initializing
flag afterwards; with no browser handle it does nothing at all. -/
theorem closeBrowser_shared_guard (s : Session) (pOk cOk : Bool) :
    (s.browser = none → closeBrowser_run s pOk cOk = (s, [])) ∧
    (s.browser.isSome = true →
      (closeBrowser_run s pOk cOk).1 = failedSession ∧
      List.Sublist (closeBrowser_run s pOk cOk).2
        [CloseStep.pageClose, CloseStep.ctxClose, CloseStep.browserClose] ∧
      (pOk = true → cOk = true → (closeBrowser_run s pOk cOk).2 =
        (if s.page.isSome then [CloseStep.pageClose] else []) ++
        (if s.context.isSome then [CloseStep.ctxClose] else []) ++
        [CloseStep.browserClose]) ∧
      (s.page.isSome = true → pOk = false →
        (closeBrowser_run s pOk cOk).2 = [CloseStep.pageClose]) ∧
      (s.context.isSome = true → cOk = false →
        CloseStep.browserClose ∉ (closeBrowser_run s pOk cOk).2)) := by
  constructor
  · intro hb
    unfold closeBrowser_run
    simp [hb]
  · intro hb
    unfold closeBrowser_run closeAttempts closeTail
    simp only [hb, if_true]
    cases hp : s.page.isSome <;> cases hc : s.context.isSome <;>
      cases pOk <;> cases cOk <;>
        simp_all

/-- Closed instance of `closeBrowser_shared_guard`: on a fully populated
session with all closes succeeding, all three steps run in order and the
session is reset. -/
theorem closeBrowser_shared_guard_witness :
    (closeBrowser_run (launchedSession 0) true true).1 = failedSession ∧
    (closeBrowser_run (launchedSession 0) true true).2 =
      [CloseStep.pageClose, CloseStep.ctxClose, CloseStep.browserClose] := by
  have h := (closeBrowser_shared_guard (launchedSession 0) true true).2 rfl
  refine ⟨h.1, ?_⟩
  have h3 := h.2.2.1 rfl rfl
  simpa using h3

/-! ## Tool layer of the primary server

Each tool's `execute` body is one try/catch: the try part is a sequence of
awaited driver operations (each modelled by an `Except String _` outcome
argument), and the catch part converts the raised message to a
failure-marked string that is returned normally. -/

/-- The try/catch-return pattern shared by every tool body of the primary
server: a raise inside the body becomes a normally returned string. -/
def jsTry (body : Except String String) (onErr : String → String) :
    Except String String :=
  match body with
  | Except.ok s => Except.ok s
  | Except.error e => Except.ok (onErr e)

/-- JS `a || b` on strings (empty string is falsy). -/
def jsOr (a b : String) : String := if a = "" then b else a

/-- JS `el.textContent?.trim()` followed by falsy coalescing: `none`
(null `textContent`) behaves like the empty string. -/
def optTrim : Option String → String
  | none => ""
  | some t => t.trim

/-- `open_browser`: reuse check, then `getBrowser()`, all under try/catch. -/
def openBrowser_exec (s : Session) (gb : Except String Unit) :
    Except String String :=
  jsTry
    (if sessionFull s then pure "✅ Browser is already open and ready"
     else do
      let _ ← gb
      pure "✅ Browser opened successfully")
    (fun e => "❌ Failed to open browser: " ++ e)

/-- `visit_url`: `getBrowser`, `page.goto`, settle delay, `page.title`,
all under try/catch. -/
def visitUrl_exec (url : String) (gb goto : Except String Unit)
    (titleR : Except String String) : Except String String :=
  jsTry
    (do
      let _ ← gb
      let _ ← goto
      let t ← titleR
      pure ("✅ Successfully visited " ++ url ++ " - Page Title: " ++ t))
    (fun e => "❌ Failed to visit " ++ url ++ ": " ++ e)

/-- A button-like element as scraped by `get_page_info`
(`button, input[type="submit"], input[type="button"]`). -/
structure BtnEl where
  textContent : Option String
  value : String
  tagName : String
deriving DecidableEq, Repr

/-- An anchor element as scraped by `get_page_info`. -/
structure LinkEl where
  textContent : Option String
  href : String
deriving DecidableEq, Repr

/-- An input/textarea element as scraped by `get_page_info`. -/
structure InputEl where
  type : String
  placeholder : String
  name : String
  id : String
deriving DecidableEq, Repr

/-- Lower-casing by character, the observable behaviour of JS
`toLowerCase()` on the attribute strings involved here. -/
def lowerStr (s : String) : String := String.mk (s.data.map Char.toLower)

/-- `get_page_info` button scrape: `elements.slice(0, 10).map(el => ...)`,
text `el.textContent?.trim() || el.value || 'No text'`, type
`el.tagName.toLowerCase()`. -/
def pageButtons (l : List BtnEl) : List (String × String) :=
  (l.take 10).map fun e =>
    (jsOr (optTrim e.textContent) (jsOr e.value "No text"), lowerStr e.tagName)

/-- `get_page_info` link scrape: `slice(0, 10)`, map to
`{text: textContent?.trim() || 'No text', href}`, then
`.filter(link => link.text && link.text !== 'No text')` — the filter runs
after the truncation. -/
def pageLinks (l : List LinkEl) : List (String × String) :=
  ((l.take 10).map fun e => (jsOr (optTrim e.textContent) "No text", e.href)).filter
    fun p => p.1 != "" && p.1 != "No text"

/-- `get_page_info` input scrape: `slice(0, 10)`, map to
`{type: el.type || 'text', placeholder, name, id}` (absent attributes come
back as empty strings). -/
def pageInputs (l : List InputEl) :
    List (String × String × String × String) :=
  (l.take 10).map fun e => (jsOr e.type "text", e.placeholder, e.name, e.id)

/-- Rendering of one scraped pair, standing in for `JSON.stringify`. -/
def renderPair (p : String × String) : String :=
  "[" ++ p.1 ++ " | " ++ p.2 ++ "]"

/-- Rendering of one scraped input record, standing in for
`JSON.stringify`. -/
def renderQuad (p : String × String × String × String) : String :=
  "[" ++ p.1 ++ " | " ++ p.2.1 ++ " | " ++ p.2.2.1 ++ " | " ++ p.2.2.2 ++ "]"

/-- The page-info template string returned by `get_page_info`. -/
def pageInfoString (title url : String) (btns links : List (String × String))
    (ins : List (String × String × String × String)) : String :=
  "📄 Page Info:\nTitle: " ++ title ++ "\nURL: " ++ url ++
    "\nButtons: " ++ String.intercalate ", " (btns.map renderPair) ++
    "\nLinks: " ++ String.intercalate ", " (links.map renderPair) ++
    "\nInputs: " ++ String.intercalate ", " (ins.map renderQuad)

/-- `get_page_info`: `getBrowser`, `page.title()`, three `$$eval` scrapes,
all under try/catch. -/
def getPageInfo_exec (url : String) (gb : Except String Unit)
    (titleR : Except String String) (btnsR : Except String (List BtnEl))
    (linksR : Except String (List LinkEl))
    (insR : Except String (List InputEl)) : Except String String :=
  jsTry
    (do
      let _ ← gb
      let title ← titleR
      let bs ← btnsR
      let ls ← linksR
      let ins ← insR
      pure (pageInfoString title url (pageButtons bs) (pageLinks ls)
        (pageInputs ins)))
    (fun e => "❌ Failed to get page info: " ++ e)

/-- `click_element`: `getBrowser`, `waitForSelector`, `click`, settle
delay, all under try/catch. -/
def clickElement_exec (selector : String)
    (gb waitR clickR : Except String Unit) : Except String String :=
  jsTry
    (do
      let _ ← gb
      let _ ← waitR
      let _ ← clickR
      pure ("✅ Successfully clicked " ++ selector))
    (fun e => "❌ Failed to click " ++ selector ++ ": " ++ e)

/-- The four element-resolution strategies of `click_by_text`, in source
order. -/
inductive Strat where
  | exactText
  | partialText
  | buttonRole
  | linkRole
deriving DecidableEq, Repr

/-- Whether a given strategy would succeed, from the four per-strategy
outcomes (`a`: exact text, `b`: partial text, `c`: button role, `d`: link
role). -/
def stratFlag (a b c d : Bool) : Strat → Bool
  | Strat.exactText => a
  | Strat.partialText => b
  | Strat.buttonRole => c
  | Strat.linkRole => d

/-- The `clicked` flag of `click_by_text` after the four guarded
attempts. -/
def clickByText_clicked (a b c d : Bool) : Bool :=
  if a then true else if b then true else if c then true
  else if d then true else false

/-- The strategies actually attempted by `click_by_text`: each attempt is
guarded by `if (!clicked)`, so a success stops all later attempts (the
fourth outcome cannot stop anything after it). -/
def clickByText_tried (a b c : Bool) : List Strat :=
  if a then [Strat.exactText]
  else if b then [Strat.exactText, Strat.partialText]
  else if c then [Strat.exactText, Strat.partialText, Strat.buttonRole]
  else [Strat.exactText, Strat.partialText, Strat.buttonRole, Strat.linkRole]

/-- The strategy whose attempt set `clicked`, if any. -/
def clickByText_winner (a b c d : Bool) : Option Strat :=
  if a then some Strat.exactText
  else if b then some Strat.partialText
  else if c then some Strat.buttonRole
  else if d then some Strat.linkRole
  else none

/-- `click_by_text`: after the four attempts, success string if `clicked`,
otherwise `throw new Error(...)` caught by the outer try/catch. -/
def clickByText_exec (text : String) (gb : Except String Unit)
    (a b c d : Bool) : Except String String :=
  jsTry
    (do
      let _ ← gb
      if clickByText_clicked a b c d then
        pure ("✅ Successfully clicked element with text: \"" ++ text ++ "\"")
      else
        Except.error
          ("Could not find clickable element with text: \"" ++ text ++ "\""))
    (fun e => "❌ Failed to click text \"" ++ text ++ "\": " ++ e)

/-- `type_into`: `getBrowser`, `waitForSelector`, `fill`, settle delay,
all under try/catch. -/
def typeInto_exec (selector value : String)
    (gb waitR fillR : Except String Unit) : Except String String :=
  jsTry
    (do
      let _ ← gb
      let _ ← waitR
      let _ ← fillR
      pure ("✅ Successfully typed \"" ++ value ++ "\" into " ++ selector))
    (fun e => "❌ Failed to type into " ++ selector ++ ": " ++ e)

/-! ## `type_by_label` element resolution -/

/-- One input field as scraped by `type_by_label`'s `$$eval('input', ...)`:
`{type, placeholder, name, id, ariaLabel: getAttribute('aria-label'),
labelText: labels[0].innerText or ''}`.  `getAttribute` can return null,
hence the `Option`. -/
structure InputDesc where
  type : String
  placeholder : String
  name : String
  id : String
  ariaLabel : Option String
  labelText : String
deriving DecidableEq, Repr

/-- `needle` occurs contiguously at the head of `hay`. -/
def charsMatch : List Char → List Char → Bool
  | [], _ => true
  | _ :: _, [] => false
  | a :: as, b :: bs => a == b && charsMatch as bs

/-- `needle` occurs contiguously anywhere in `hay`. -/
def searchChars (needle : List Char) : List Char → Bool
  | [] => charsMatch needle []
  | c :: rest => charsMatch needle (c :: rest) || searchChars needle rest

/-- JS `hay.includes(needle)` on strings. -/
def jsIncludes (hay needle : String) : Bool :=
  searchChars needle.data hay.data

/-- The candidate test of `type_by_label`: some of
placeholder/name/id/aria-label/associated-label text is truthy and
contains the lower-cased label (each attribute lower-cased first). -/
def inputMatches (ll : String) (i : InputDesc) : Bool :=
  (i.placeholder != "" && jsIncludes (lowerStr i.placeholder) ll) ||
  (i.name != "" && jsIncludes (lowerStr i.name) ll) ||
  (i.id != "" && jsIncludes (lowerStr i.id) ll) ||
  (match i.ariaLabel with
   | some a => a != "" && jsIncludes (lowerStr a) ll
   | none => false) ||
  (i.labelText != "" && jsIncludes (lowerStr i.labelText) ll)

/-- The selector built from a chosen input:
`input.id ? input#id : input.name ? input[name='...'] :
input.placeholder ? input[placeholder='...'] : null`. -/
def selOf (i : InputDesc) : Option String :=
  if i.id != "" then some ("input#" ++ i.id)
  else if i.name != "" then some ("input[name=\x27" ++ i.name ++ "\x27]")
  else if i.placeholder != "" then
    some ("input[placeholder=\x27" ++ i.placeholder ++ "\x27]")
  else none

/-- The password preference branch: the label contains "password" and the
candidate's input type is `password` (break out of the loop). -/
def prefersPassword (ll : String) (i : InputDesc) : Bool :=
  jsIncludes ll "password" && i.type == "password"

/-- The username preference branch: the label contains "user"/"login"/"id"
and the candidate's input type is `text` or `email` (break out of the
loop). -/
def prefersUser (ll : String) (i : InputDesc) : Bool :=
  (jsIncludes ll "user" || jsIncludes ll "login" || jsIncludes ll "id") &&
  (i.type == "text" || i.type == "email")

/-- The candidate loop of `type_by_label`: `sel` is the running
`selector` variable (`if (!selector) selector = ...` keeps only the first
fallback assignment); a preference branch returns immediately
(`break`). -/
def pickLoop (ll : String) (sel : Option String) :
    List InputDesc → Option String
  | [] => sel
  | i :: rest =>
    if inputMatches ll i then
      if prefersPassword ll i then selOf i
      else if prefersUser ll i then selOf i
      else if sel.isNone then pickLoop ll (selOf i) rest
      else pickLoop ll sel rest
    else pickLoop ll sel rest

/-- The selector chosen by `type_by_label` for a label over the scraped
input list. -/
def typeByLabel_pick (label : String) (inputs : List InputDesc) :
    Option String :=
  pickLoop (lowerStr label) none inputs

/-- `type_by_label`: scrape inputs, pick a selector, `fill` it (or report
not-found as a normal failure string), all under try/catch. -/
def typeByLabel_exec (label value : String) (gb : Except String Unit)
    (insR : Except String (List InputDesc)) (fillR : Except String Unit) :
    Except String String :=
  jsTry
    (do
      let _ ← gb
      let ins ← insR
      match typeByLabel_pick label ins with
      | some _ => do
        let _ ← fillR
        pure ("✅ Typed \"" ++ value ++ "\" into field: \"" ++ label ++ "\"")
      | none =>
        pure ("❌ Could not find input field for: \"" ++ label ++ "\""))
    (fun e => "❌ Failed to type by label \"" ++ label ++ "\": " ++ e)

/-- `submit_form`: named-button click when `buttonText` is truthy, else a
generic submit-control click with an Enter-key fallback, all under
try/catch. -/
def submitForm_exec (buttonText : Option String)
    (gb namedR genR enterR : Except String Unit) : Except String String :=
  jsTry
    (do
      let _ ← gb
      if (buttonText.getD "") != "" then do
        let _ ← namedR
        pure "✅ Form submitted successfully"
      else
        match genR with
        | Except.ok _ => pure "✅ Form submitted successfully"
        | Except.error _ => do
          let _ ← enterR
          pure "✅ Form submitted successfully")
    (fun e => "❌ Failed to submit form: " ++ e)

/-! ## Screenshot naming -/

/-- The character replacement of
`new Date().toISOString().replace(/[:.]/g, '-')`. -/
def sanitizeChar (c : Char) : Char :=
  if c = ':' ∨ c = '.' then '-' else c

/-- Timestamp sanitization applied character-wise to the ISO string. -/
def sanitizeTimestamp (s : String) : String :=
  String.mk (s.data.map sanitizeChar)

/-- The three millisecond digits of an ISO timestamp
(`toISOString` always renders exactly three). -/
def msDigits (ms : Nat) : List Char :=
  [Nat.digitChar (ms / 100), Nat.digitChar (ms / 10 % 10),
   Nat.digitChar (ms % 10)]

/-- An ISO-8601 timestamp as produced by `toISOString`: a second-resolution
part like `2026-10-11T19:33:01`, then `.`, three millisecond digits, and
`Z`. -/
def toISO (secondPart : String) (ms : Nat) : String :=
  secondPart ++ "." ++ String.mk (msDigits ms) ++ "Z"

/-- The screenshot file name `${filename}_${timestamp}.png` built by
`take_screenshot`. -/
def screenshotName (filename iso : String) : String :=
  filename ++ "_" ++ sanitizeTimestamp iso ++ ".png"

/-- `take_screenshot`: `getBrowser`, build the timestamped name,
`page.screenshot`, all under try/catch. -/
def takeScreenshot_exec (filename iso : String)
    (gb shotR : Except String Unit) : Except String String :=
  jsTry
    (do
      let _ ← gb
      let _ ← shotR
      pure ("📸 Screenshot saved: " ++ screenshotName filename iso))
    (fun e => "❌ Failed to take screenshot: " ++ e)

/-- `check_browser_status`: no `getBrowser` call — it reads the globals
directly; `page.title()` is the only awaited operation and only on the
fully-open branch. -/
def checkBrowserStatus_exec (s : Session) (urlStr : String)
    (titleR : Except String String) : Except String String :=
  jsTry
    (if sessionFull s then do
      let t ← titleR
      pure ("✅ Browser is open and ready\nCurrent URL: " ++ urlStr ++
        "\nPage Title: " ++ t)
     else pure "❌ Browser is not open")
    (fun e => "❌ Error checking browser status: " ++ e)

/-- `check_browser_status` with the session threaded through: the body
contains no assignment to any session global, so the post-state is the
input state. -/
def checkBrowserStatus_run (s : Session) (urlStr : String)
    (titleR : Except String String) : Session × String :=
  (s,
   if sessionFull s then
     match titleR with
     | Except.ok t =>
       "✅ Browser is open and ready\nCurrent URL: " ++ urlStr ++
         "\nPage Title: " ++ t
     | Except.error e => "❌ Error checking browser status: " ++ e
   else "❌ Browser is not open")

/-- `close_browser` tool: awaits `closeBrowser()` under try/catch. -/
def closeBrowserTool_exec (cl : Except String Unit) : Except String String :=
  jsTry
    (do
      let _ ← cl
      pure "✅ Browser closed successfully")
    (fun e => "❌ Failed to close browser: " ++ e)

/-- `rewritePrompt` of the primary server: the OpenAI chat call under
try/catch; on failure the original prompt is returned unchanged
(`return originalPrompt; // Return original if rewrite fails`). -/
def rewritePrompt_run (originalPrompt : String)
    (apiResp : Except String String) : String :=
  match apiResp with
  | Except.ok content => content
  | Except.error _ => originalPrompt

end BrowserAgent

namespace BrowserAgent.BE

/-! ## Legacy server (`src/BE/index.js`)

Its tool bodies and `rewritePrompt` contain no try/catch: a raise from an
awaited driver/API call propagates out of the tool body. -/

/-- Legacy `click_element`: `getBrowser` then `page.click` with no
try/catch. -/
def clickElement_exec (selector : String) (gb clickR : Except String Unit) :
    Except String String := do
  let _ ← gb
  let _ ← clickR
  pure ("✅ Clicked " ++ selector)

/-- Legacy `type_by_label`: placeholder selector probe, label selector
probe, `fill` on the found one, or `throw new Error(...)` — no
try/catch. -/
def typeByLabel_exec (label value : String) (gb : Except String Unit)
    (phFound lbFound : Bool) (fillR : Except String Unit) :
    Except String String := do
  let _ ← gb
  if phFound then do
    let _ ← fillR
    pure ("✅ Typed \"" ++ value ++ "\" into input with placeholder \"" ++
      label ++ "\"")
  else if lbFound then do
    let _ ← fillR
    pure ("✅ Typed \"" ++ value ++ "\" into input with label \"" ++
      label ++ "\"")
  else
    Except.error
      ("Input field with label or placeholder \"" ++ label ++ "\" not found")

/-- Legacy `rewritePrompt`: the OpenAI chat call with no try/catch — a
failure propagates to the `/api/ask` route instead of falling back to the
original prompt. -/
def rewritePrompt_run (apiResp : Except String String) :
    Except String String := do
  let content ← apiResp
  pure content

end BrowserAgent.BE

namespace BrowserAgent

/-- Any try/catch-return body yields a normally returned string. -/
theorem jsTry_isOk (body : Except String String) (onErr : String → String) :
    (jsTry body onErr).isOk = true := by
  cases body <;> rfl

/-- C3 (amended): in the primary server every tool body catches every
error from its own operations — `execute` always returns a string, never
propagates an exception — and the catch branch returns a failure-marked
string ending in the underlying message; in the legacy BE server the tool
bodies have no such boundary (see the counterexample theorem). -/
theorem tools_never_raise (s : Session)
    (url selector value label text filename iso e : String)
    (buttonText : Option String)
    (gb goto waitR clickR fillR namedR genR enterR shotR cl :
      Except String Unit)
    (titleR : Except String String) (btnsR : Except String (List BtnEl))
    (linksR : Except String (List LinkEl))
    (insER : Except String (List InputEl))
    (insR : Except String (List InputDesc)) (a b c d : Bool) :
    (openBrowser_exec s gb).isOk = true ∧
    (visitUrl_exec url gb goto titleR).isOk = true ∧
    (getPageInfo_exec url gb titleR btnsR linksR insER).isOk = true ∧
    (clickElement_exec selector gb waitR clickR).isOk = true ∧
    (clickByText_exec text gb a b c d).isOk = true ∧
    (typeInto_exec selector value gb waitR fillR).isOk = true ∧
    (typeByLabel_exec label value gb insR fillR).isOk = true ∧
    (submitForm_exec buttonText gb namedR genR enterR).isOk = true ∧
    (takeScreenshot_exec filename iso gb shotR).isOk = true ∧
    (checkBrowserStatus_exec s url titleR).isOk = true ∧
    (closeBrowserTool_exec cl).isOk = true ∧
    openBrowser_exec failedSession (Except.error e) =
      Except.ok ("❌ Failed to open browser: " ++ e) ∧
    visitUrl_exec url (Except.error e) goto titleR =
      Except.ok ("❌ Failed to visit " ++ url ++ ": " ++ e) ∧
    getPageInfo_exec url (Except.error e) titleR btnsR linksR insER =
      Except.ok ("❌ Failed to get page info: " ++ e) ∧
    clickElement_exec selector (Except.error e) waitR clickR =
      Except.ok ("❌ Failed to click " ++ selector ++ ": " ++ e) ∧
    clickByText_exec text (Except.error e) a b c d =
      Except.ok ("❌ Failed to click text \"" ++ text ++ "\": " ++ e) ∧
    typeInto_exec selector value (Except.error e) waitR fillR =
      Except.ok ("❌ Failed to type into " ++ selector ++ ": " ++ e) ∧
    typeByLabel_exec label value (Except.error e) insR fillR =
      Except.ok ("❌ Failed to type by label \"" ++ label ++ "\": " ++ e) ∧
    submitForm_exec buttonText (Except.error e) namedR genR enterR =
      Except.ok ("❌ Failed to submit form: " ++ e) ∧
    takeScreenshot_exec filename iso (Except.error e) shotR =
      Except.ok ("❌ Failed to take screenshot: " ++ e) ∧
    checkBrowserStatus_exec (launchedSession 0) url (Except.error e) =
      Except.ok ("❌ Error checking browser status: " ++ e) ∧
    closeBrowserTool_exec (Except.error e) =
      Except.ok ("❌ Failed to close browser: " ++ e) := by
  refine ⟨jsTry_isOk _ _, jsTry_isOk _ _, jsTry_isOk _ _, jsTry_isOk _ _,
    jsTry_isOk _ _, jsTry_isOk _ _, jsTry_isOk _ _, jsTry_isOk _ _,
    jsTry_isOk _ _, jsTry_isOk _ _, jsTry_isOk _ _,
    rfl, rfl, rfl, rfl, rfl, rfl, rfl, ?_, rfl, rfl, rfl⟩
  unfold submitForm_exec jsTry
  rfl

/-- C3 counterexample: in the legacy BE server a driver timeout raised by
`page.click` propagates out of `click_element`'s body, and
`type_by_label` itself throws when no field is found — exceptions cross
the tool boundary to the orchestration loop. -/
theorem BE_tools_raise_uncaught :
    BE.clickElement_exec "#submit" (Except.ok ())
        (Except.error "Timeout 5000ms exceeded") =
      Except.error "Timeout 5000ms exceeded" ∧
    BE.typeByLabel_exec "Email" "a@b.c" (Except.ok ()) false false
        (Except.ok ()) =
      Except.error
        "Input field with label or placeholder \"Email\" not found" := by
  exact ⟨rfl, rfl⟩

/-- C4: `click_by_text` attempts exact text, partial text, button role,
link role in exactly that order; the winning strategy is the first whose
attempt succeeds; the link-role strategy is tried only when the first
three all fail (so an exact-text button wins before any link match is
tried); a success yields the success string and exhausting all four
yields the no-clickable-element failure string. -/
theorem clickByText_strategy_order (text : String) (a b c d : Bool) :
    clickByText_winner a b c d =
      [Strat.exactText, Strat.partialText, Strat.buttonRole,
        Strat.linkRole].find? (stratFlag a b c d) ∧
    clickByText_tried a b c =
      ([Strat.exactText, Strat.partialText, Strat.buttonRole,
        Strat.linkRole].takeWhile fun st => !stratFlag a b c d st) ++
        (clickByText_winner a b c d).toList ∧
    (clickByText_tried a b c).contains Strat.linkRole = (!a && !b && !c) ∧
    clickByText_winner true b c d = some Strat.exactText ∧
    clickByText_exec text (Except.ok ()) a b c d =
      Except.ok
        (if clickByText_clicked a b c d then
          "✅ Successfully clicked element with text: \"" ++ text ++ "\""
         else
          "❌ Failed to click text \"" ++ text ++ "\": " ++
            ("Could not find clickable element with text: \"" ++ text ++
              "\"")) := by
  cases a <;> cases b <;> cases c <;> cases d <;>
    exact ⟨rfl, rfl, rfl, rfl, rfl⟩

/-- C8 (amended): in the primary server a failed prompt-rewrite call
degrades to the original unmodified prompt and a successful call yields
the rewritten text; in the legacy BE server the failure propagates out of
`rewritePrompt` instead. -/
theorem rewritePrompt_fallback (p t e : String) :
    rewritePrompt_run p (Except.ok t) = t ∧
    rewritePrompt_run p (Except.error e) = p ∧
    BE.rewritePrompt_run (Except.error e) = Except.error e := by
  exact ⟨rfl, rfl, rfl⟩

/-- C8 counterexample: in the legacy BE server an OpenAI connection
failure propagates out of `rewritePrompt` — the request aborts instead of
falling back to the original prompt. -/
theorem BE_rewritePrompt_aborts :
    BE.rewritePrompt_run (Except.error "ECONNREFUSED") =
      Except.error "ECONNREFUSED" ∧
    (Except.error "ECONNREFUSED" : Except String String) ≠
      Except.ok "order two pizzas" := by
  refine ⟨rfl, fun h => ?_⟩
  exact Except.noConfusion h

/-- C9: `get_page_info` reports at most the first 10 button-like
elements, at most the first 10 links (the empty-text filter runs after
the truncation), and at most the first 10 input/textarea elements, in
document order; elements beyond each cap never influence the returned
page-info string, and every reported link has nonempty text. -/
theorem getPageInfo_caps (url : String) (gb : Except String Unit)
    (titleR : Except String String) (bs : List BtnEl) (ls : List LinkEl)
    (ins : List InputEl) :
    (pageButtons bs).length ≤ 10 ∧
    (pageLinks ls).length ≤ 10 ∧
    (pageInputs ins).length ≤ 10 ∧
    pageButtons bs = pageButtons (bs.take 10) ∧
    pageLinks ls = pageLinks (ls.take 10) ∧
    pageInputs ins = pageInputs (ins.take 10) ∧
    getPageInfo_exec url gb titleR (Except.ok bs) (Except.ok ls)
        (Except.ok ins) =
      getPageInfo_exec url gb titleR (Except.ok (bs.take 10))
        (Except.ok (ls.take 10)) (Except.ok (ins.take 10)) ∧
    (pageLinks ls).all (fun p => p.1 != "" && p.1 != "No text") = true := by
  have hbs : pageButtons bs = pageButtons (bs.take 10) := by
    unfold pageButtons
    simp [List.take_take]
  have hls : pageLinks ls = pageLinks (ls.take 10) := by
    unfold pageLinks
    simp [List.take_take]
  have hins : pageInputs ins = pageInputs (ins.take 10) := by
    unfold pageInputs
    simp [List.take_take]
  refine ⟨?_, ?_, ?_, hbs, hls, hins, ?_, ?_⟩
  · unfold pageButtons
    simpa using List.length_take_le 10 bs
  · unfold pageLinks
    refine le_trans (List.length_filter_le _ _) ?_
    simpa using List.length_take_le 10 ls
  · unfold pageInputs
    simpa using List.length_take_le 10 ins
  · unfold getPageInfo_exec
    cases gb with
    | error e => rfl
    | ok u =>
      cases titleR with
      | error e => rfl
      | ok t =>
        show Except.ok (pageInfoString t url (pageButtons bs) (pageLinks ls)
            (pageInputs ins)) =
          Except.ok (pageInfoString t url (pageButtons (bs.take 10))
            (pageLinks (ls.take 10)) (pageInputs (ins.take 10)))
        rw [hbs, hls, hins]
  · unfold pageLinks
    simp only [List.all_eq_true]
    intro p hp
    exact (List.mem_filter.mp hp).2

/-- C10: `check_browser_status` never creates or modifies the session —
the post-state equals the pre-state — and it reports the browser as not
open whenever any of the three handles is missing or the browser process
is disconnected. -/
theorem checkBrowserStatus_frame (s : Session) (urlStr : String)
    (titleR : Except String String) :
    (checkBrowserStatus_run s urlStr titleR).1 = s ∧
    (sessionFull s = false →
      (checkBrowserStatus_run s urlStr titleR).2 =
        "❌ Browser is not open") := by
  refine ⟨rfl, ?_⟩
  intro h
  unfold checkBrowserStatus_run
  simp [h]

/-- Closed instance of `checkBrowserStatus_frame` on the empty session:
the session is untouched and the status is "not open". -/
theorem checkBrowserStatus_frame_witness :
    (checkBrowserStatus_run failedSession "about:blank"
        (Except.ok "t")).1 = failedSession ∧
    (checkBrowserStatus_run failedSession "about:blank"
        (Except.ok "t")).2 = "❌ Browser is not open" :=
  ⟨(checkBrowserStatus_frame failedSession "about:blank" (Except.ok "t")).1,
   (checkBrowserStatus_frame failedSession "about:blank" (Except.ok "t")).2
     rfl⟩

/-! ## C5: the `type_by_label` tie-break policy -/

/-- A text-typed input whose name contains "password": it is a containment
match for the label "password" but not a password-typed candidate. -/
def textPassInput : InputDesc :=
  { type := "text", placeholder := "", name := "mypassword", id := "user1",
    ariaLabel := none, labelText := "" }

/-- C5 counterexample: with label "password" and a single matching
candidate of input type `text`, `type_by_label` selects that text-typed
candidate — it does not (and cannot) select a password-typed one, so the
claim's unconditional "selects a candidate of input type password" fails
when no password-typed candidate exists. -/
theorem typeByLabel_password_pref_needs_candidate :
    jsIncludes (lowerStr "password") "password" = true ∧
    inputMatches (lowerStr "password") textPassInput = true ∧
    textPassInput.type = "text" ∧
    typeByLabel_pick "password" [textPassInput] = some "input#user1" := by
  exact ⟨rfl, rfl, rfl, rfl⟩

/-- A candidate that triggers one of the two preference (break) branches
of the `type_by_label` loop. -/
def preferred (ll : String) (i : InputDesc) : Bool :=
  prefersPassword ll i || prefersUser ll i

/-- Loop characterization: over all-matching candidates, the first
preferred candidate (if any) wins via its `break`; otherwise the running
`selector` keeps its first non-null assignment in document order. -/
theorem pickLoop_characterization (ll : String) (sel : Option String)
    (l : List InputDesc) (h : ∀ i ∈ l, inputMatches ll i = true) :
    pickLoop ll sel l =
      match l.find? (preferred ll) with
      | some i => selOf i
      | none =>
        match sel with
        | some s => some s
        | none => l.findSome? selOf := by
  induction l generalizing sel with
  | nil => cases sel <;> rfl
  | cons i rest ih =>
    have hi : inputMatches ll i = true := h i (List.mem_cons_self i rest)
    have hrest : ∀ j ∈ rest, inputMatches ll j = true :=
      fun j hj => h j (List.mem_cons_of_mem i hj)
    unfold pickLoop
    rw [hi]
    simp only [if_true]
    cases hp : prefersPassword ll i with
    | true =>
      have hpref : preferred ll i = true := by
        unfold preferred
        rw [hp]
        rfl
      simp [List.find?_cons, hpref]
    | false =>
      cases hu : prefersUser ll i with
      | true =>
        have hpref : preferred ll i = true := by
          unfold preferred
          rw [hp, hu]
          rfl
        simp [List.find?_cons, hpref]
      | false =>
        have hpref : preferred ll i = false := by
          unfold preferred
          rw [hp, hu]
          rfl
        rw [List.find?_cons]
        simp only [hpref]
        cases sel with
        | some s =>
          simp only [Option.isNone_some, Bool.false_eq_true, if_false]
          rw [ih (some s) hrest]
        | none =>
          simp only [Option.isNone_none, if_true]
          rw [ih (selOf i) hrest]
          cases hfind : rest.find? (preferred ll) with
          | some j => rfl
          | none =>
            cases hsel : selOf i with
            | some s => simp [List.findSome?_cons, hsel]
            | none => simp [List.findSome?_cons, hsel]

/-- C5 (amended): over a list of candidates that all contain the label,
`type_by_label` selects the first candidate (in document order) that
either is password-typed while the label contains "password", or is
text/email-typed while the label contains "user"/"login"/"id"; if no such
candidate exists, it keeps the first containment match that yields a
non-null selector (non-empty id, name, or placeholder). -/
theorem typeByLabel_tiebreak (label : String) (inputs : List InputDesc)
    (h : ∀ i ∈ inputs, inputMatches (lowerStr label) i = true) :
    typeByLabel_pick label inputs =
      match inputs.find? (preferred (lowerStr label)) with
      | some i => selOf i
      | none => inputs.findSome? selOf := by
  unfold typeByLabel_pick
  rw [pickLoop_characterization (lowerStr label) none inputs h]

/-- The text-typed input of the spec's password example (name contains
"pass", type `text`). -/
def textCand : InputDesc :=
  { type := "text", placeholder := "", name := "password1", id := "txt1",
    ariaLabel := none, labelText := "" }

/-- The password-typed input of the spec's password example. -/
def pwdCand : InputDesc :=
  { type := "password", placeholder := "", name := "mypassword", id := "pwd1",
    ariaLabel := none, labelText := "" }

/-- Closed instance of `typeByLabel_tiebreak`, the spec's own example:
label "password" with a text-typed and a password-typed matching input
selects the password-typed one. -/
theorem typeByLabel_tiebreak_witness :
    typeByLabel_pick "password" [textCand, pwdCand] = some "input#pwd1" ∧
    pwdCand.type = "password" := by
  have h2 := typeByLabel_tiebreak "password" [textCand, pwdCand] (by decide)
  exact ⟨h2.trans rfl, rfl⟩

/-! ## C7: screenshot naming -/

/-- C7 counterexample: two `take_screenshot` calls with base name "step"
in the same millisecond (hence within the same second) both produce this
very file name — the names are not distinct and the second write
overwrites the first artifact. -/
theorem screenshot_same_ms_collision :
    screenshotName "step" (toISO "2026-10-11T10:20:30" 5) =
      "step_2026-10-11T10-20-30-005Z.png" := by
  rfl

/-- A digit character is unchanged by the timestamp sanitizer. -/
theorem sanitize_digit (k : Nat) (hk : k < 10) :
    sanitizeChar (Nat.digitChar k) = Nat.digitChar k := by
  interval_cases k <;> rfl

/-- The millisecond digits pass through the sanitizer unchanged. -/
theorem msDigits_sanitize (m : Nat) (h : m < 1000) :
    (msDigits m).map sanitizeChar = msDigits m := by
  unfold msDigits
  rw [List.map_cons, List.map_cons, List.map_cons, List.map_nil]
  rw [sanitize_digit (m / 100) (by omega),
    sanitize_digit (m / 10 % 10) (by omega),
    sanitize_digit (m % 10) (by omega)]

/-- `digitChar` is injective below 10. -/
theorem digitChar_inj_lt10 :
    ∀ a, a < 10 → ∀ b, b < 10 → Nat.digitChar a = Nat.digitChar b →
      a = b := by
  decide

/-- The three-digit millisecond rendering is injective below 1000. -/
theorem msDigits_inj (m1 m2 : Nat) (h1 : m1 < 1000) (h2 : m2 < 1000)
    (h : msDigits m1 = msDigits m2) : m1 = m2 := by
  unfold msDigits at h
  simp only [List.cons.injEq, and_true] at h
  obtain ⟨e1, e2, e3⟩ := h
  have d1 := digitChar_inj_lt10 (m1 / 100) (by omega) (m2 / 100) (by omega) e1
  have d2 := digitChar_inj_lt10 (m1 / 10 % 10) (by omega) (m2 / 10 % 10)
    (by omega) e2
  have d3 := digitChar_inj_lt10 (m1 % 10) (by omega) (m2 % 10) (by omega) e3
  omega

/-- C7 (amended): the ISO timestamp embedded in a screenshot file name has
millisecond precision, so two calls with the same base name and the same
second produce distinct names exactly when their millisecond stamps
differ; two calls in the same millisecond produce the same name (see the
counterexample), in which case the later write overwrites the earlier
artifact. -/
theorem screenshotName_distinct_ms (filename secondPart : String)
    (ms1 ms2 : Nat) (h1 : ms1 < 1000) (h2 : ms2 < 1000) (hne : ms1 ≠ ms2) :
    screenshotName filename (toISO secondPart ms1) ≠
      screenshotName filename (toISO secondPart ms2) := by
  intro heq
  apply hne
  have hd := congrArg String.data heq
  simp only [screenshotName, toISO, sanitizeTimestamp, String.data_append,
    List.map_append] at hd
  have hd2 : filename.data ++ ['_'] ++
      (secondPart.data.map sanitizeChar ++ ['-'] ++ msDigits ms1 ++ ['Z']) ++
      ['.', 'p', 'n', 'g'] =
      filename.data ++ ['_'] ++
      (secondPart.data.map sanitizeChar ++ ['-'] ++ msDigits ms2 ++ ['Z']) ++
      ['.', 'p', 'n', 'g'] := by
    have hm1 := msDigits_sanitize ms1 h1
    have hm2 := msDigits_sanitize ms2 h2
    simpa [hm1, hm2] using hd
  have hd3 := List.append_cancel_right hd2
  have hd4 := List.append_cancel_left hd3
  have hd5 : msDigits ms1 ++ ['Z'] = msDigits ms2 ++ ['Z'] := by
    have h5 : (secondPart.data.map sanitizeChar ++ ['-']) ++
        (msDigits ms1 ++ ['Z']) =
        (secondPart.data.map sanitizeChar ++ ['-']) ++
        (msDigits ms2 ++ ['Z']) := by
      simpa [List.append_assoc] using hd4
    exact List.append_cancel_left h5
  exact msDigits_inj ms1 ms2 h1 h2 (List.append_cancel_right hd5)

/-- Closed instance of `screenshotName_distinct_ms`: two calls one
millisecond apart within the same second get distinct names. -/
theorem screenshotName_distinct_ms_witness :
    screenshotName "step" (toISO "2026-10-11T10:20:30" 5) ≠
      screenshotName "step" (toISO "2026-10-11T10:20:30" 6) :=
  screenshotName_distinct_ms "step" "2026-10-11T10:20:30" 5 6
    (by decide) (by decide) (by decide)

end BrowserAgent

namespace BrowserAgent.Conc

/-!
## C1: concurrent `getBrowser` calls

JavaScript runs the tool bodies on one cooperative event loop: each
`getBrowser()` invocation executes synchronously between `await` points,
and other invocations may only interleave at those points.  The machine
below models `n` concurrent callers of `getBrowser` as tasks whose program
counters sit at the function's suspension points:

* `start`   — the caller has not run yet; its first synchronous slice
  checks `browserInitializing`, then the reuse condition, then sets the
  flag and initiates `chromium.launch` (the stale-browser branch first
  initiates `browser.close()`);
* `wait`    — inside the `while (browserInitializing)` poll loop;
* `closing` — awaiting the best-effort `browser.close()` of a stale handle;
* `launching`/`ctxing`/`paging` — awaiting `chromium.launch` /
  `browser.newContext` / `context.newPage`; on resumption the result is
  assigned to the corresponding global;
* `done`    — the call returned (with the handle triple it read) or threw.

`env k` gives the fate of the `k`-th initialization attempt. -/

/-- Program counter of one concurrent `getBrowser` caller. -/
inductive PC where
  | start
  | wait
  | closing
  | launching
  | ctxing
  | paging
  | done
deriving DecidableEq, Repr

/-- How a finished `getBrowser` call ended: a returned handle triple, or a
re-raised launch failure. -/
inductive TaskRes where
  | returned (b c p : Option Nat)
  | thrown
deriving DecidableEq, Repr

/-- One concurrent caller. -/
structure Task where
  pc : PC
  res : Option TaskRes
deriving DecidableEq, Repr

/-- The shared module globals, plus instrumentation counters:
`attempts` counts entries into the initialization section, `launches`
counts completed `chromium.launch` calls (browser processes created). -/
structure MState where
  init : Bool
  browser : Option Nat
  context : Option Nat
  page : Option Nat
  connected : Bool
  attempts : Nat
  launches : Nat
deriving DecidableEq, Repr

/-- The reuse condition `browser && browser.isConnected() && context &&
page` over the machine state. -/
def fullConn (st : MState) : Bool :=
  st.browser.isSome && st.connected && st.context.isSome && st.page.isSome

/-- A machine configuration: shared state plus `n` tasks. -/
structure Config (n : Nat) where
  shared : MState
  tasks : Fin n → Task

/-- Fate of one initialization attempt: all three awaited driver calls
succeed, or `chromium.launch` / `newContext` / `newPage` raises. -/
inductive AttemptFate where
  | ok
  | failLaunch
  | failCtx
  | failPage
deriving DecidableEq, Repr

/-- Replace one task. -/
def setTask {n : Nat} (c : Config n) (i : Fin n) (t : Task) : Config n :=
  { c with tasks := Function.update c.tasks i t }

/-- Replace the shared state and one task. -/
def setBoth {n : Nat} (c : Config n) (st : MState) (i : Fin n) (t : Task) :
    Config n :=
  { shared := st, tasks := Function.update c.tasks i t }

theorem setTask_shared {n : Nat} (c : Config n) (i : Fin n) (t : Task) :
    (setTask c i t).shared = c.shared := rfl

theorem setBoth_shared {n : Nat} (c : Config n) (st : MState) (i : Fin n)
    (t : Task) : (setBoth c st i t).shared = st := rfl

theorem setTask_self {n : Nat} (c : Config n) (i : Fin n) (t : Task) :
    (setTask c i t).tasks i = t := by
  unfold setTask
  exact Function.update_same i t c.tasks

theorem setTask_other {n : Nat} (c : Config n) (i j : Fin n) (t : Task)
    (h : j ≠ i) : (setTask c i t).tasks j = c.tasks j := by
  unfold setTask
  exact Function.update_noteq h t c.tasks

theorem setBoth_self {n : Nat} (c : Config n) (st : MState) (i : Fin n)
    (t : Task) : (setBoth c st i t).tasks i = t := by
  unfold setBoth
  exact Function.update_same i t c.tasks

theorem setBoth_other {n : Nat} (c : Config n) (st : MState) (i j : Fin n)
    (t : Task) (h : j ≠ i) : (setBoth c st i t).tasks j = c.tasks j := by
  unfold setBoth
  exact Function.update_noteq h t c.tasks

/-- One interleaving step of the `n` concurrent `getBrowser` callers.
Each constructor is one synchronous slice of `getBrowser` between two
`await` points. -/
inductive Step (env : Nat → AttemptFate) {n : Nat} :
    Config n → Config n → Prop where
  | startWait (c : Config n) (i : Fin n)
      (hpc : (c.tasks i).pc = PC.start) (hi : c.shared.init = true) :
      Step env c (setTask c i { pc := PC.wait, res := none })
  | startReuse (c : Config n) (i : Fin n)
      (hpc : (c.tasks i).pc = PC.start) (hi : c.shared.init = false)
      (hf : fullConn c.shared = true) :
      Step env c (setTask c i
        { pc := PC.done,
          res := some (TaskRes.returned c.shared.browser c.shared.context
            c.shared.page) })
  | startInit (c : Config n) (i : Fin n)
      (hpc : (c.tasks i).pc = PC.start) (hi : c.shared.init = false)
      (hf : fullConn c.shared = false) (hb : c.shared.browser = none) :
      Step env c (setBoth c
        { c.shared with init := true, attempts := c.shared.attempts + 1 }
        i { pc := PC.launching, res := none })
  | startInitStale (c : Config n) (i : Fin n)
      (hpc : (c.tasks i).pc = PC.start) (hi : c.shared.init = false)
      (hf : fullConn c.shared = false)
      (hb : c.shared.browser.isSome = true) :
      Step env c (setBoth c
        { c.shared with init := true, attempts := c.shared.attempts + 1 }
        i { pc := PC.closing, res := none })
  | staleClosed (c : Config n) (i : Fin n)
      (hpc : (c.tasks i).pc = PC.closing) :
      Step env c (setTask c i { pc := PC.launching, res := none })
  | launchOk (c : Config n) (i : Fin n)
      (hpc : (c.tasks i).pc = PC.launching)
      (he : env (c.shared.attempts - 1) ≠ AttemptFate.failLaunch) :
      Step env c (setBoth c
        { c.shared with
            browser := some (c.shared.attempts - 1),
            launches := c.shared.launches + 1 }
        i { pc := PC.ctxing, res := none })
  | launchFail (c : Config n) (i : Fin n)
      (hpc : (c.tasks i).pc = PC.launching)
      (he : env (c.shared.attempts - 1) = AttemptFate.failLaunch) :
      Step env c (setBoth c
        { c.shared with
            init := false, browser := none, context := none,
            page := none, connected := false }
        i { pc := PC.done, res := some TaskRes.thrown })
  | ctxOk (c : Config n) (i : Fin n)
      (hpc : (c.tasks i).pc = PC.ctxing)
      (he : env (c.shared.attempts - 1) ≠ AttemptFate.failCtx) :
      Step env c (setBoth c
        { c.shared with context := some (c.shared.attempts - 1) }
        i { pc := PC.paging, res := none })
  | ctxFail (c : Config n) (i : Fin n)
      (hpc : (c.tasks i).pc = PC.ctxing)
      (he : env (c.shared.attempts - 1) = AttemptFate.failCtx) :
      Step env c (setBoth c
        { c.shared with
            init := false, browser := none, context := none,
            page := none, connected := false }
        i { pc := PC.done, res := some TaskRes.thrown })
  | pageOk (c : Config n) (i : Fin n)
      (hpc : (c.tasks i).pc = PC.paging)
      (he : env (c.shared.attempts - 1) = AttemptFate.ok) :
      Step env c (setBoth c
        { c.shared with
            page := some (c.shared.attempts - 1),
            connected := true, init := false }
        i
        { pc := PC.done,
          res := some (TaskRes.returned c.shared.browser c.shared.context
            (some (c.shared.attempts - 1))) })
  | pageFail (c : Config n) (i : Fin n)
      (hpc : (c.tasks i).pc = PC.paging)
      (he : env (c.shared.attempts - 1) = AttemptFate.failPage) :
      Step env c (setBoth c
        { c.shared with
            init := false, browser := none, context := none,
            page := none, connected := false }
        i { pc := PC.done, res := some TaskRes.thrown })
  | waitPoll (c : Config n) (i : Fin n)
      (hpc : (c.tasks i).pc = PC.wait) (hi : c.shared.init = true) :
      Step env c c
  | waitExit (c : Config n) (i : Fin n)
      (hpc : (c.tasks i).pc = PC.wait) (hi : c.shared.init = false) :
      Step env c (setTask c i
        { pc := PC.done,
          res := some (TaskRes.returned c.shared.browser c.shared.context
            c.shared.page) })

/-- Reachability by interleaving steps. -/
def Steps (env : Nat → AttemptFate) {n : Nat} (c c' : Config n) : Prop :=
  Relation.ReflTransGen (Step env) c c'

/-- The empty session with `n` callers about to invoke `getBrowser`. -/
def initConfig (n : Nat) : Config n :=
  { shared :=
      { init := false, browser := none, context := none, page := none,
        connected := false, attempts := 0, launches := 0 },
    tasks := fun _ => { pc := PC.start, res := none } }

/-- Every caller has finished. -/
def AllDone {n : Nat} (c : Config n) : Prop :=
  ∀ i, (c.tasks i).pc = PC.done

/-- The environment in which every initialization attempt succeeds. -/
def allOkEnv : Nat → AttemptFate := fun _ => AttemptFate.ok

/-- A caller that has not touched the shared state: still at `start` or
polling in the wait loop. -/
def TaskIdle (t : Task) : Prop :=
  (t.pc = PC.start ∨ t.pc = PC.wait) ∧ t.res = none

/-- A finished caller that returned the canonical handle triple of the
one successful launch. -/
def doneTask (t : Task) : Prop :=
  t.pc = PC.done ∧
  t.res = some (TaskRes.returned (some 0) (some 0) (some 0))

/-- Shared state before any initialization attempt. -/
def emptyShared (st : MState) : Prop :=
  st.browser = none ∧ st.context = none ∧ st.page = none ∧
  st.connected = false ∧ st.attempts = 0 ∧ st.launches = 0

/-- Shared state after the one successful initialization. -/
def readyShared (st : MState) : Prop :=
  st.browser = some 0 ∧ st.context = some 0 ∧ st.page = some 0 ∧
  st.connected = true ∧ st.attempts = 1 ∧ st.launches = 1

/-- Shared state as seen while the unique initializing task is at the
given suspension point (all-success environment). -/
def moverState (st : MState) (p : PC) : Prop :=
  st.attempts = 1 ∧ st.connected = false ∧
  ((p = PC.launching ∧ st.launches = 0 ∧ st.browser = none ∧
     st.context = none ∧ st.page = none) ∨
   (p = PC.ctxing ∧ st.launches = 1 ∧ st.browser = some 0 ∧
     st.context = none ∧ st.page = none) ∨
   (p = PC.paging ∧ st.launches = 1 ∧ st.browser = some 0 ∧
     st.context = some 0 ∧ st.page = none))

/-- The inductive invariant of the machine under the all-success
environment, from the empty `n`-caller start. -/
def Inv {n : Nat} (c : Config n) : Prop :=
  (c.shared.init = true →
    ∃ i : Fin n, moverState c.shared (c.tasks i).pc ∧
      (c.tasks i).res = none ∧ ∀ j, j ≠ i → TaskIdle (c.tasks j)) ∧
  (c.shared.init = false →
    (∀ i, TaskIdle (c.tasks i) ∨ doneTask (c.tasks i)) ∧
    (emptyShared c.shared ∨ readyShared c.shared)) ∧
  (c.shared.init = false → emptyShared c.shared →
    ∀ i, (c.tasks i).pc = PC.start ∧ (c.tasks i).res = none)

theorem ready_fullConn {st : MState} (h : readyShared st) :
    fullConn st = true := by
  obtain ⟨hb, hc, hp, hcon, _, _⟩ := h
  unfold fullConn
  rw [hb, hc, hp, hcon]
  rfl

theorem empty_fullConn {st : MState} (h : emptyShared st) :
    fullConn st = false := by
  unfold fullConn
  rw [h.1]
  rfl

theorem moverState_pc {st : MState} {p : PC} (h : moverState st p) :
    p = PC.launching ∨ p = PC.ctxing ∨ p = PC.paging := by
  rcases h.2.2 with ⟨hp, _⟩ | ⟨hp, _⟩ | ⟨hp, _⟩
  · exact Or.inl hp
  · exact Or.inr (Or.inl hp)
  · exact Or.inr (Or.inr hp)

theorem initConfig_inv (n : Nat) : Inv (initConfig n) := by
  refine ⟨?_, ?_, ?_⟩
  · intro h
    exact absurd h (by simp [initConfig])
  · intro _
    refine ⟨fun i => Or.inl ⟨Or.inl rfl, rfl⟩, Or.inl ⟨rfl, rfl, rfl, rfl, rfl, rfl⟩⟩
  · intro _ _ i
    exact ⟨rfl, rfl⟩

theorem active_not_idle_done {t : Task} (hio : TaskIdle t ∨ doneTask t)
    (h : t.pc = PC.launching ∨ t.pc = PC.ctxing ∨ t.pc = PC.paging ∨
      t.pc = PC.closing) : False := by
  rcases hio with ⟨hsw, _⟩ | ⟨hd, _⟩
  · rcases hsw with h1 | h1 <;> rcases h with h2 | h2 | h2 | h2 <;>
      rw [h1] at h2 <;> exact PC.noConfusion h2
  · rcases h with h2 | h2 | h2 | h2 <;> rw [hd] at h2 <;>
      exact PC.noConfusion h2

/-- In any invariant state, a task sitting at an initialization suspension
point is the unique initializer: the flag is set, the shared state matches
its program counter, and every other task is idle. -/
theorem active_is_mover {n : Nat} {c : Config n} (hinv : Inv c) {i : Fin n}
    (hact : (c.tasks i).pc = PC.launching ∨ (c.tasks i).pc = PC.ctxing ∨
      (c.tasks i).pc = PC.paging ∨ (c.tasks i).pc = PC.closing) :
    c.shared.init = true ∧ moverState c.shared ((c.tasks i).pc) ∧
      (c.tasks i).res = none ∧ ∀ j, j ≠ i → TaskIdle (c.tasks j) := by
  obtain ⟨h1, h2, h3⟩ := hinv
  cases hii : c.shared.init with
  | false =>
    exfalso
    exact active_not_idle_done ((h2 hii).1 i) hact
  | true =>
    obtain ⟨j, hmov, hres, hoth⟩ := h1 hii
    have hij : i = j := by
      by_contra hne
      exact active_not_idle_done (Or.inl (hoth i hne)) hact
    subst hij
    exact ⟨rfl, hmov, hres, hoth⟩

/-- Preservation of the invariant by every interleaving step, in the
all-success environment. -/
theorem inv_step {n : Nat} (env : Nat → AttemptFate)
    (henv : ∀ k, env k = AttemptFate.ok) {c c' : Config n}
    (hinv : Inv c) (hs : Step env c c') : Inv c' := by
  obtain ⟨h1, h2, h3⟩ := hinv
  cases hs with
  | startWait i hpc hi =>
    obtain ⟨j, hmov, hres, hoth⟩ := h1 hi
    have hji : j ≠ i := by
      intro he
      subst he
      rcases moverState_pc hmov with hp | hp | hp <;> rw [hpc] at hp <;>
        exact PC.noConfusion hp
    refine ⟨?_, ?_, ?_⟩
    · intro _
      refine ⟨j, ?_, ?_, ?_⟩
      · rw [setTask_shared, setTask_other c i j _ hji]
        exact hmov
      · rw [setTask_other c i j _ hji]
        exact hres
      · intro k hk
        by_cases hki : k = i
        · subst hki
          rw [setTask_self]
          exact ⟨Or.inr rfl, rfl⟩
        · rw [setTask_other c i k _ hki]
          exact hoth k hk
    · intro hfalse
      exact Bool.noConfusion (hi.symm.trans hfalse)
    · intro hfalse _
      exact Bool.noConfusion (hi.symm.trans hfalse)
  | startReuse i hpc hi hf =>
    have hall := h2 hi
    have hready : readyShared c.shared := by
      rcases hall.2 with hemp | hr
      · rw [empty_fullConn hemp] at hf
        exact Bool.noConfusion hf
      · exact hr
    refine ⟨?_, ?_, ?_⟩
    · intro hfalse
      exact Bool.noConfusion (hi.symm.trans hfalse)
    · intro _
      constructor
      · intro k
        by_cases hki : k = i
        · subst hki
          rw [setTask_self]
          right
          refine ⟨rfl, ?_⟩
          rw [hready.1, hready.2.1, hready.2.2.1]
        · rw [setTask_other c i k _ hki]
          exact hall.1 k
      · rw [setTask_shared]
        exact Or.inr hready
    · intro _ hemp
      rw [setTask_shared] at hemp
      have hx : c.shared.browser = none := hemp.1
      rw [hready.1] at hx
      exact Option.noConfusion hx
  | startInit i hpc hi hf hb =>
    have hall := h2 hi
    have hemp : emptyShared c.shared := by
      rcases hall.2 with he | hr
      · exact he
      · rw [hr.1] at hb
        exact Option.noConfusion hb
    have hstart := h3 hi hemp
    refine ⟨?_, ?_, ?_⟩
    · intro _
      refine ⟨i, ?_, ?_, ?_⟩
      · rw [setBoth_shared, setBoth_self]
        refine ⟨?_, ?_, Or.inl ⟨rfl, ?_, ?_, ?_, ?_⟩⟩
        · show c.shared.attempts + 1 = 1
          rw [hemp.2.2.2.2.1]
        · exact hemp.2.2.2.1
        · exact hemp.2.2.2.2.2
        · exact hemp.1
        · exact hemp.2.1
        · exact hemp.2.2.1
      · rw [setBoth_self]
      · intro k hk
        rw [setBoth_other c _ i k _ hk]
        exact ⟨Or.inl (hstart k).1, (hstart k).2⟩
    · intro hfalse
      exact Bool.noConfusion hfalse
    · intro hfalse _
      exact Bool.noConfusion hfalse
  | startInitStale i hpc hi hf hb =>
    exfalso
    rcases (h2 hi).2 with hemp | hr
    · rw [hemp.1] at hb
      exact Bool.noConfusion hb
    · rw [ready_fullConn hr] at hf
      exact Bool.noConfusion hf
  | staleClosed i hpc =>
    exfalso
    have ha := active_is_mover ⟨h1, h2, h3⟩
      (Or.inr (Or.inr (Or.inr hpc)))
    rcases moverState_pc ha.2.1 with hp | hp | hp <;> rw [hpc] at hp <;>
      exact PC.noConfusion hp
  | launchOk i hpc he =>
    obtain ⟨hii, ⟨hatt, hcon, hdis⟩, hres, hoth⟩ :=
      active_is_mover ⟨h1, h2, h3⟩ (Or.inl hpc)
    have hfields : c.shared.launches = 0 ∧ c.shared.browser = none ∧
        c.shared.context = none ∧ c.shared.page = none := by
      rcases hdis with ⟨_, h4, h5, h6, h7⟩ | ⟨hp, _⟩ | ⟨hp, _⟩
      · exact ⟨h4, h5, h6, h7⟩
      · rw [hpc] at hp
        exact PC.noConfusion hp
      · rw [hpc] at hp
        exact PC.noConfusion hp
    refine ⟨?_, ?_, ?_⟩
    · intro _
      refine ⟨i, ?_, ?_, ?_⟩
      · rw [setBoth_shared, setBoth_self]
        refine ⟨hatt, hcon, Or.inr (Or.inl ⟨rfl, ?_, ?_, ?_, ?_⟩)⟩
        · show c.shared.launches + 1 = 1
          rw [hfields.1]
        · show (some (c.shared.attempts - 1) : Option Nat) = some 0
          rw [hatt]
        · exact hfields.2.2.1
        · exact hfields.2.2.2
      · rw [setBoth_self]
      · intro k hk
        rw [setBoth_other c _ i k _ hk]
        exact hoth k hk
    · intro hfalse
      exact Bool.noConfusion (hii.symm.trans hfalse)
    · intro hfalse _
      exact Bool.noConfusion (hii.symm.trans hfalse)
  | launchFail i hpc he =>
    exact absurd ((henv (c.shared.attempts - 1)).symm.trans he) (by decide)
  | ctxOk i hpc he =>
    obtain ⟨hii, ⟨hatt, hcon, hdis⟩, hres, hoth⟩ :=
      active_is_mover ⟨h1, h2, h3⟩ (Or.inr (Or.inl hpc))
    have hfields : c.shared.launches = 1 ∧ c.shared.browser = some 0 ∧
        c.shared.context = none ∧ c.shared.page = none := by
      rcases hdis with ⟨hp, _⟩ | ⟨_, h4, h5, h6, h7⟩ | ⟨hp, _⟩
      · rw [hpc] at hp
        exact PC.noConfusion hp
      · exact ⟨h4, h5, h6, h7⟩
      · rw [hpc] at hp
        exact PC.noConfusion hp
    refine ⟨?_, ?_, ?_⟩
    · intro _
      refine ⟨i, ?_, ?_, ?_⟩
      · rw [setBoth_shared, setBoth_self]
        refine ⟨hatt, hcon,
          Or.inr (Or.inr ⟨rfl, hfields.1, hfields.2.1, ?_,
            hfields.2.2.2⟩)⟩
        show (some (c.shared.attempts - 1) : Option Nat) = some 0
        rw [hatt]
      · rw [setBoth_self]
      · intro k hk
        rw [setBoth_other c _ i k _ hk]
        exact hoth k hk
    · intro hfalse
      exact Bool.noConfusion (hii.symm.trans hfalse)
    · intro hfalse _
      exact Bool.noConfusion (hii.symm.trans hfalse)
  | ctxFail i hpc he =>
    exact absurd ((henv (c.shared.attempts - 1)).symm.trans he) (by decide)
  | pageOk i hpc he =>
    obtain ⟨hii, ⟨hatt, hcon, hdis⟩, hres, hoth⟩ :=
      active_is_mover ⟨h1, h2, h3⟩ (Or.inr (Or.inr (Or.inl hpc)))
    have hfields : c.shared.launches = 1 ∧ c.shared.browser = some 0 ∧
        c.shared.context = some 0 ∧ c.shared.page = none := by
      rcases hdis with ⟨hp, _⟩ | ⟨hp, _⟩ | ⟨_, h4, h5, h6, h7⟩
      · rw [hpc] at hp
        exact PC.noConfusion hp
      · rw [hpc] at hp
        exact PC.noConfusion hp
      · exact ⟨h4, h5, h6, h7⟩
    refine ⟨?_, ?_, ?_⟩
    · intro hfalse
      exact Bool.noConfusion hfalse
    · intro _
      constructor
      · intro k
        by_cases hk : k = i
        · subst hk
          rw [setBoth_self]
          right
          refine ⟨rfl, ?_⟩
          rw [hfields.2.1, hfields.2.2.1, hatt]
        · rw [setBoth_other c _ i k _ hk]
          exact Or.inl (hoth k hk)
      · rw [setBoth_shared]
        right
        refine ⟨hfields.2.1, hfields.2.2.1, ?_, rfl, hatt, hfields.1⟩
        show (some (c.shared.attempts - 1) : Option Nat) = some 0
        rw [hatt]
    · intro _ hemp
      rw [setBoth_shared] at hemp
      have hx : c.shared.attempts = 0 := hemp.2.2.2.2.1
      rw [hatt] at hx
      exact absurd hx (by decide)
  | pageFail i hpc he =>
    exact absurd ((henv (c.shared.attempts - 1)).symm.trans he) (by decide)
  | waitPoll i hpc hi =>
    exact ⟨h1, h2, h3⟩
  | waitExit i hpc hi =>
    have hall := h2 hi
    have hready : readyShared c.shared := by
      rcases hall.2 with hemp | hr
      · have hx := (h3 hi hemp i).1
        rw [hpc] at hx
        exact PC.noConfusion hx
      · exact hr
    refine ⟨?_, ?_, ?_⟩
    · intro hfalse
      exact Bool.noConfusion (hi.symm.trans hfalse)
    · intro _
      constructor
      · intro k
        by_cases hk : k = i
        · subst hk
          rw [setTask_self]
          right
          refine ⟨rfl, ?_⟩
          rw [hready.1, hready.2.1, hready.2.2.1]
        · rw [setTask_other c i k _ hk]
          exact hall.1 k
      · rw [setTask_shared]
        exact Or.inr hready
    · intro _ hemp
      rw [setTask_shared] at hemp
      have hx : c.shared.browser = none := hemp.1
      rw [hready.1] at hx
      exact Option.noConfusion hx

/-- C1: for every set of `getBrowser` callers started concurrently against
the empty session, under the cooperative event-loop interleaving and with
every launch attempt succeeding, once all callers have finished exactly one
browser process has been launched and every caller returned the same
handle triple (the one page of the single launch).  A caller that arrives
while the `initializing` flag is set parks in the poll loop (`startWait`,
`waitPoll`) and the only step that lets it finish, `waitExit`, fires after
the flag clears and returns the then-current handles without launching. -/
theorem getBrowser_single_launch {n : Nat} (hn : 0 < n)
    (env : Nat → AttemptFate) (henv : ∀ k, env k = AttemptFate.ok)
    (c : Config n) (hr : Steps env (initConfig n) c) (hd : AllDone c) :
    c.shared.launches = 1 ∧
    ∀ i, (c.tasks i).res =
      some (TaskRes.returned (some 0) (some 0) (some 0)) := by
  have hinv : Inv c := by
    clear hd hn
    unfold Steps at hr
    induction hr with
    | refl => exact initConfig_inv n
    | tail hsteps hstep ih => exact inv_step env henv ih hstep
  obtain ⟨h1, h2, h3⟩ := hinv
  have hif : c.shared.init = false := by
    cases hii : c.shared.init with
    | false => rfl
    | true =>
      obtain ⟨i, hmov, _, _⟩ := h1 hii
      rcases moverState_pc hmov with hp | hp | hp <;> rw [hd i] at hp <;>
        exact PC.noConfusion hp
  have hall := h2 hif
  have hready : readyShared c.shared := by
    rcases hall.2 with hemp | hr2
    · have hx := (h3 hif hemp ⟨0, hn⟩).1
      rw [hd ⟨0, hn⟩] at hx
      exact PC.noConfusion hx
    · exact hr2
  refine ⟨hready.2.2.2.2.2, ?_⟩
  intro i
  rcases hall.1 i with hidle | hdone
  · exfalso
    rcases hidle.1 with h | h <;> rw [hd i] at h <;> exact PC.noConfusion h
  · exact hdone.2

/-- Configuration after caller 0's first synchronous slice: flag set,
launch initiated. -/
def cfg1 : Config 2 :=
  setBoth (initConfig 2)
    { (initConfig 2).shared with
        init := true, attempts := (initConfig 2).shared.attempts + 1 }
    0 { pc := PC.launching, res := none }

/-- Caller 1 arrives while the flag is set and parks in the poll loop. -/
def cfg2 : Config 2 := setTask cfg1 1 { pc := PC.wait, res := none }

/-- `chromium.launch` resolves: the browser global is assigned. -/
def cfg3 : Config 2 :=
  setBoth cfg2
    { cfg2.shared with
        browser := some (cfg2.shared.attempts - 1),
        launches := cfg2.shared.launches + 1 }
    0 { pc := PC.ctxing, res := none }

/-- `browser.newContext` resolves. -/
def cfg4 : Config 2 :=
  setBoth cfg3
    { cfg3.shared with context := some (cfg3.shared.attempts - 1) }
    0 { pc := PC.paging, res := none }

/-- `context.newPage` resolves; caller 0 clears the flag and returns. -/
def cfg5 : Config 2 :=
  setBoth cfg4
    { cfg4.shared with
        page := some (cfg4.shared.attempts - 1),
        connected := true, init := false }
    0
    { pc := PC.done,
      res := some (TaskRes.returned cfg4.shared.browser cfg4.shared.context
        (some (cfg4.shared.attempts - 1))) }

/-- Caller 1 sees the cleared flag and returns the then-current handles. -/
def runFinal : Config 2 :=
  setTask cfg5 1
    { pc := PC.done,
      res := some (TaskRes.returned cfg5.shared.browser cfg5.shared.context
        cfg5.shared.page) }

/-- The concrete two-caller interleaving: caller 0 initializes while
caller 1 busy-waits, then both finish. -/
theorem runFinal_reachable : Steps allOkEnv (initConfig 2) runFinal := by
  unfold Steps
  exact Relation.ReflTransGen.head
    (Step.startInit (initConfig 2) 0 rfl rfl rfl rfl)
    (Relation.ReflTransGen.head (Step.startWait cfg1 1 rfl rfl)
      (Relation.ReflTransGen.head (Step.launchOk cfg2 0 rfl (by decide))
        (Relation.ReflTransGen.head (Step.ctxOk cfg3 0 rfl (by decide))
          (Relation.ReflTransGen.head (Step.pageOk cfg4 0 rfl rfl)
            (Relation.ReflTransGen.head (Step.waitExit cfg5 1 rfl rfl)
              Relation.ReflTransGen.refl)))))

/-- Closed instance of `getBrowser_single_launch` on the concrete
two-caller run: one launch, and both callers returned the same page. -/
theorem getBrowser_single_launch_witness :
    runFinal.shared.launches = 1 ∧
    (runFinal.tasks 0).res =
      some (TaskRes.returned (some 0) (some 0) (some 0)) ∧
    (runFinal.tasks 1).res =
      some (TaskRes.returned (some 0) (some 0) (some 0)) := by
  have hd : AllDone runFinal := by
    unfold AllDone
    decide
  have h := @getBrowser_single_launch 2 (by decide) allOkEnv
    (fun _ => rfl) runFinal runFinal_reachable hd
  exact ⟨h.1, h.2 0, h.2 1⟩

end BrowserAgent.Conc
